import Mathlib

/-!
Shallow embedding of the AI-Surveillance-System backend
(`src/backend/alerts/alert_manager.py`, `src/backend/storage/evidence_manager.py`,
`src/backend/detection/detector.py`, `src/backend/main.py`).

Modelling conventions:
* wall-clock instants (`datetime.now()`) are rationals, passed explicitly to the
  operations that call `datetime.now()` in the source;
* Python dicts keyed by strings are association lists with first-match lookup
  and in-place update;
* the result of awaiting a channel's `send_alert` coroutine is an explicit
  `SendOutcome` (returned `True`, returned `False`, or raised), carried by the
  handler value, and the wall-clock span the await takes is its `duration`;
* filesystem effects (`cv2.imwrite`, writing `metadata.json`) are modelled by
  explicit success/raise flags passed to the operation, and the persisted
  metadata file content is mirrored in a `disk` field.
-/

/-- Python dict lookup `d.get(k)` over an association list (first match wins). -/
def dictLookup {α : Type} (d : List (String × α)) (k : String) : Option α :=
  match d with
  | [] => none
  | (k0, v0) :: rest => if k0 = k then some v0 else dictLookup rest k

/-- Python dict assignment `d[k] = v`: replace the existing binding in place,
or append a new one. -/
def dictSet {α : Type} (d : List (String × α)) (k : String) (v : α) :
    List (String × α) :=
  match d with
  | [] => [(k, v)]
  | (k0, v0) :: rest =>
      if k0 = k then (k, v) :: rest else (k0, v0) :: dictSet rest k v

/-- Python `int(x)` on a float: truncation toward zero. -/
def pyInt (q : ℚ) : ℤ :=
  if 0 ≤ q then ⌊q⌋ else ⌈q⌉

/-- Outcome of awaiting one channel's `send_alert` coroutine: it returned
`True`, returned `False`, or raised an exception. -/
inductive SendOutcome : Type
  | ok : SendOutcome
  | failed : SendOutcome
  | raised : SendOutcome
deriving DecidableEq, Repr

/-- One configured notification-channel handler (`SMSHandler`, `EmailHandler`,
`TelegramHandler`, `WhatsAppHandler`): its `_initialized` flag, the outcome of
awaiting its `send_alert`, and how long that await takes. -/
structure Handler : Type where
  _initialized : Bool
  outcome : SendOutcome
  duration : ℚ
deriving DecidableEq, Repr

/-- Embeds the `AlertRecord` dataclass from `alert_manager.py`. -/
structure AlertRecord : Type where
  weapon_type : String
  confidence : ℚ
  location : String
  timestamp : ℚ
  channels : List String
  evidence_path : Option String
deriving DecidableEq, Repr

/-- The mutable state of an `AlertManager` instance. -/
structure AlertManagerState : Type where
  cooldown_seconds : ℚ
  enabled : Bool
  sms_handler : Option Handler
  email_handler : Option Handler
  telegram_handler : Option Handler
  whatsapp_handler : Option Handler
  last_alerts : List (String × ℚ)
  alert_history : List AlertRecord
  max_history : ℕ
deriving DecidableEq, Repr

/-- Return value of `AlertManager.trigger_alert` (the `result` dict). -/
structure TriggerResult : Type where
  triggered : Bool
  channels : List (String × Bool)
  reason : Option String
deriving DecidableEq, Repr

namespace AlertManager

/-- Embeds `AlertManager._check_cooldown`: `True` if no previous alert for this class,
or if the elapsed wall-clock time since it is at least `cooldown_seconds`. -/
def check_cooldown (st : AlertManagerState) (now : ℚ) (weapon_type : String) :
    Bool :=
  match dictLookup st.last_alerts weapon_type with
  | none => true
  | some last => decide (st.cooldown_seconds ≤ now - last)

/-- History trimming in `AlertManager._record_alert`
(`self._alert_history[-self._max_history:]` when over the bound). -/
def trimHistory (max_history : ℕ) (l : List AlertRecord) : List AlertRecord :=
  if max_history < l.length then l.drop (l.length - max_history) else l

/-- Embeds `AlertManager._record_alert`: stamp the per-class cooldown clock with `now`,
append the `AlertRecord`, and trim history to the most recent `max_history`. -/
def record_alert (st : AlertManagerState) (now : ℚ) (weapon_type : String)
    (confidence : ℚ) (location : String) (channels : List String)
    (evidence_path : Option String) : AlertManagerState :=
  { st with
    last_alerts := dictSet st.last_alerts weapon_type now
    alert_history :=
      trimHistory st.max_history
        (st.alert_history ++
          [{ weapon_type := weapon_type, confidence := confidence,
             location := location, timestamp := now, channels := channels,
             evidence_path := evidence_path }]) }

/-- The `tasks` list built in `trigger_alert` from one optional handler:
present and `_initialized` contributes one `(name, coroutine)` pair. -/
def optTask (name : String) : Option Handler → List (String × Handler)
  | none => []
  | some h => if h._initialized then [(name, h)] else []

/-- The full `tasks` list of `trigger_alert`, in source order:
sms, email, telegram, whatsapp. -/
def readyTasks (st : AlertManagerState) : List (String × Handler) :=
  optTask "sms" st.sms_handler ++ optTask "email" st.email_handler ++
    optTask "telegram" st.telegram_handler ++
    optTask "whatsapp" st.whatsapp_handler

/-- The `result["channels"]` map built by the `for channel, task in tasks` loop:
one entry per attempted channel, `true` exactly when the await returned `True`
(a raised exception is caught and recorded as `False`). -/
def channelResults (tasks : List (String × Handler)) : List (String × Bool) :=
  tasks.map (fun p => (p.1, decide (p.2.outcome = SendOutcome.ok)))

/-- The `successful_channels` list accumulated by the dispatch loop. -/
def successfulChannels (tasks : List (String × Handler)) : List String :=
  tasks.filterMap
    (fun p => if p.2.outcome = SendOutcome.ok then some p.1 else none)

/-- Embeds `channels_used`: the successful channels, or the sentinel `["log"]`. -/
def channelsUsed (tasks : List (String × Handler)) : List String :=
  if (successfulChannels tasks).isEmpty then ["log"]
  else successfulChannels tasks

/-- Embeds `AlertManager.trigger_alert`. Returns the `result` dict and the updated
manager state. `now` stands for `datetime.now()` during this call. -/
def trigger_alert (st : AlertManagerState) (now : ℚ) (weapon_type : String)
    (confidence : ℚ) (location : String) (evidence_path : Option String)
    (force : Bool) : TriggerResult × AlertManagerState :=
  if st.enabled = false then
    ({ triggered := false, channels := [], reason := some "alerts_disabled" },
      st)
  else if force = false ∧ check_cooldown st now weapon_type = false then
    let last := (dictLookup st.last_alerts weapon_type).getD 0
    let remaining := st.cooldown_seconds - (now - last)
    ({ triggered := false, channels := [],
       reason := some ("cooldown_active_" ++ toString (pyInt remaining) ++
         "s_remaining") }, st)
  else
    let tasks := readyTasks st
    ({ triggered := true, channels := channelResults tasks, reason := none },
      record_alert st now weapon_type confidence location (channelsUsed tasks)
        evidence_path)

/-- Timing of the `for channel, task in tasks: await task` loop in
`trigger_alert`: each coroutine starts executing only when it is awaited, so
channel `k` starts at the sum of the durations of channels `0..k-1`.
Returns `(name, start, finish)` per channel, from clock origin `t`. -/
def dispatchSchedule (t : ℚ) : List (String × Handler) →
    List (String × ℚ × ℚ)
  | [] => []
  | (name, h) :: rest =>
      (name, t, t + h.duration) :: dispatchSchedule (t + h.duration) rest

end AlertManager

/-- Python-side container distinction that `EvidenceRecord.bbox` lives in:
`save_detection` stores a tuple of ints, while a JSON reload produces a list.
Python's `==` (and dataclass equality) distinguishes the two. -/
inductive PySeq : Type
  | tup : List ℤ → PySeq
  | lst : List ℤ → PySeq
deriving DecidableEq, Repr

/-- Elements of the container, ignoring whether it is a tuple or a list. -/
def PySeq.elems : PySeq → List ℤ
  | PySeq.tup xs => xs
  | PySeq.lst xs => xs

/-- Embeds the `EvidenceRecord` dataclass from `evidence_manager.py`. -/
structure EvidenceRecord : Type where
  id : String
  weapon_type : String
  confidence : ℚ
  timestamp : String
  location : String
  image_path : String
  bbox : PySeq
deriving DecidableEq, Repr

/-- JSON values as produced by Python's `json` module (`json.dumps` writes a
tuple as an array; `json.load` reads an array back as a list, an integer
literal as `int`, a fractional literal as `float`). -/
inductive Json : Type
  | jstr : String → Json
  | jint : ℤ → Json
  | jnum : ℚ → Json
  | jarr : List Json → Json
  | jobj : List (String × Json) → Json

/-- Embeds `EvidenceRecord.to_dict` (`dataclasses.asdict`) composed with
`json.dumps`: one JSON object per record, keys in dataclass field order; the
`bbox` tuple or list becomes a JSON array of its integer elements. -/
def encodeRecord (r : EvidenceRecord) : Json :=
  Json.jobj
    [("id", Json.jstr r.id),
     ("weapon_type", Json.jstr r.weapon_type),
     ("confidence", Json.jnum r.confidence),
     ("timestamp", Json.jstr r.timestamp),
     ("location", Json.jstr r.location),
     ("image_path", Json.jstr r.image_path),
     ("bbox", Json.jarr (r.bbox.elems.map Json.jint))]

/-- Reads a JSON array of integers back as the Python list `json.load` yields. -/
def decodeIntList : List Json → Option (List ℤ)
  | [] => some []
  | Json.jint i :: rest => (decodeIntList rest).map (fun is => i :: is)
  | _ => none

/-- Embeds `EvidenceRecord(**record)` applied to one decoded JSON object in
`_load_metadata`: the `bbox` entry comes back as a Python list. -/
def decodeRecord : Json → Option EvidenceRecord
  | Json.jobj fields =>
    match dictLookup fields "id", dictLookup fields "weapon_type",
        dictLookup fields "confidence", dictLookup fields "timestamp",
        dictLookup fields "location", dictLookup fields "image_path",
        dictLookup fields "bbox" with
    | some (Json.jstr i), some (Json.jstr w), some (Json.jnum c),
        some (Json.jstr t), some (Json.jstr l), some (Json.jstr p),
        some (Json.jarr bb) =>
      (decodeIntList bb).map
        (fun xs =>
          { id := i, weapon_type := w, confidence := c, timestamp := t,
            location := l, image_path := p, bbox := PySeq.lst xs })
    | _, _, _, _, _, _, _ => none
  | _ => none

/-- The JSON document `_save_metadata` writes to `metadata.json`:
`json.dumps([record.to_dict() for record in self._evidence_records])`. -/
def saveIndex (records : List EvidenceRecord) : Json :=
  Json.jarr (records.map encodeRecord)

/-- Decodes each element of the loaded JSON array, as the comprehension
`[EvidenceRecord(**record) for record in data]` does. -/
def decodeRecords : List Json → Option (List EvidenceRecord)
  | [] => some []
  | j :: rest =>
    match decodeRecord j, decodeRecords rest with
    | some r, some rs => some (r :: rs)
    | _, _ => none

/-- Embeds `_load_metadata` applied to a metadata document. -/
def loadIndex : Json → Option (List EvidenceRecord)
  | Json.jarr js => decodeRecords js
  | _ => none

/-- What one `EvidenceRecord` becomes after a persist-and-reload cycle:
every field survives except that the `bbox` container is now a list. -/
def reloadRecord (r : EvidenceRecord) : EvidenceRecord :=
  { r with bbox := PySeq.lst r.bbox.elems }

/-- The mutable state of an `EvidenceManager` instance. `disk` mirrors the
records whose JSON is currently in `metadata.json`; `meta_attempts` counts the
calls to `_save_metadata`. -/
structure EvidenceManagerState : Type where
  max_files : ℕ
  save_annotated : Bool
  records : List EvidenceRecord
  disk : List EvidenceRecord
  meta_attempts : ℕ
deriving DecidableEq, Repr

/-- A freshly constructed store with no prior evidence. -/
def initialStore (max_files : ℕ) : EvidenceManagerState :=
  { max_files := max_files, save_annotated := true, records := [], disk := [],
    meta_attempts := 0 }

namespace EvidenceManager

/-- Embeds `EvidenceManager._save_metadata`: one write attempt; on success the
full current index is on disk; an exception is caught inside and only logged
(`meta_ok = false` leaves the old disk content). -/
def save_metadata (meta_ok : Bool) (st : EvidenceManagerState) :
    EvidenceManagerState :=
  { st with meta_attempts := st.meta_attempts + 1,
            disk := if meta_ok then st.records else st.disk }

/-- The `while len(self._evidence_records) > self.max_files:
self._evidence_records.pop(0)` loop of `_cleanup_old_evidence` (the per-record
artifact deletions touch only the filesystem, not the index). -/
def cleanupLoop (max_files : ℕ) : List EvidenceRecord → List EvidenceRecord
  | [] => []
  | r :: rest =>
    if max_files < rest.length + 1 then cleanupLoop max_files rest
    else r :: rest

/-- Embeds `EvidenceManager._cleanup_old_evidence`: evict oldest-first until at
most `max_files` records remain, then persist the index exactly once. -/
def cleanup_old_evidence (meta_ok : Bool) (st : EvidenceManagerState) :
    EvidenceManagerState :=
  save_metadata meta_ok { st with records := cleanupLoop st.max_files st.records }

/-- Embeds `EvidenceManager.save_detection`. `imwrite_raises` says whether one
of the `cv2.imwrite` calls raises (the exception is caught and `None` is
returned before the record is appended); `meta_ok` says whether the metadata
writes succeed (their failure is swallowed inside `_save_metadata`). Returns
the evidence id and the updated store. -/
def save_detection (imwrite_raises : Bool) (meta_ok : Bool)
    (st : EvidenceManagerState) (r : EvidenceRecord) :
    Option String × EvidenceManagerState :=
  if imwrite_raises then (none, st)
  else
    let st1 := { st with records := st.records ++ [r] }
    let st2 := save_metadata meta_ok st1
    let st3 := cleanup_old_evidence meta_ok st2
    (some r.id, st3)

/-- A sequence of successful `save_detection` calls, one per listed record. -/
def saveAll (st : EvidenceManagerState) (rs : List EvidenceRecord) :
    EvidenceManagerState :=
  rs.foldl (fun s r => (save_detection false true s r).2) st

end EvidenceManager

/-- Python truthiness of the optional evidence id (`if evidence_id:` in
`main.py`): `None` and the empty string are falsy. -/
def pyTruthyStr : Option String → Bool
  | none => false
  | some s => !s.isEmpty

/-- The guard in `websocket_stream` (`main.py`) around `trigger_alert`: the
alert is triggered only when `save_detection` returned a truthy evidence id. -/
def websocketTriggersAlert (evidence_id : Option String) : Bool :=
  pyTruthyStr evidence_id

/-- Embeds the `Detection` dataclass from `detector.py`. -/
structure Detection : Type where
  class_name : String
  confidence : ℚ
  bbox : ℤ × ℤ × ℤ × ℤ
  timestamp : ℚ
  frame_id : ℕ
deriving DecidableEq, Repr

/-- The mutable per-run state of a `WeaponDetector` instance (the fields read
or written by `detect`). -/
structure WeaponDetectorState : Type where
  confidence_threshold : ℚ
  detection_cooldown : ℕ
  frame_count : ℕ
  last_detection_frame : List (String × ℕ)
deriving DecidableEq, Repr

namespace WeaponDetector

/-- A freshly constructed detector: `frame_count = 0` and an empty
`last_detection_frame` dict. -/
def initState (confidence_threshold : ℚ) (detection_cooldown : ℕ) :
    WeaponDetectorState :=
  { confidence_threshold := confidence_threshold,
    detection_cooldown := detection_cooldown, frame_count := 0,
    last_detection_frame := [] }

/-- Embeds one `WeaponDetector.detect` call. The model inference and the
per-box filtering are opaque here: `dets` is the candidate batch the loop body
accumulated for this frame. The function increments `frame_count` and applies
the batch-level cooldown block at the end of `detect`: a non-empty batch is
returned in full and stamps `last_detection_frame["_any_"]` only when at least
`detection_cooldown` frames have passed since the last accepted batch;
otherwise the whole batch is replaced by `[]`. -/
def detectStep (st : WeaponDetectorState) (dets : List Detection) :
    List Detection × WeaponDetectorState :=
  let fc := st.frame_count + 1
  let st1 := { st with frame_count := fc }
  if dets.isEmpty then (dets, st1)
  else
    let last_alert_frame := (dictLookup st1.last_detection_frame "_any_").getD 0
    if (st1.detection_cooldown : ℤ) ≤ (fc : ℤ) - (last_alert_frame : ℤ) then
      (dets,
        { st1 with
          last_detection_frame := dictSet st1.last_detection_frame "_any_" fc })
    else ([], st1)

/-- Detector state after `n` `detect` calls on a fresh detector with cooldown
`d`, where call `i` produces the candidate batch `bs i`. -/
def detectIter (d : ℕ) (bs : ℕ → List Detection) : ℕ → WeaponDetectorState
  | 0 => initState (7/10) d
  | n + 1 => (detectStep (detectIter d bs n) (bs (n + 1))).2

/-- The batch the `n`-th `detect` call returns in that run (`n ≥ 1`). -/
def detectOut (d : ℕ) (bs : ℕ → List Detection) : ℕ → List Detection
  | 0 => []
  | n + 1 => (detectStep (detectIter d bs n) (bs (n + 1))).1

end WeaponDetector

/-- A coordinator with alerts disabled and no channels configured. -/
def demoOff : AlertManagerState :=
  { cooldown_seconds := 60, enabled := false, sms_handler := none,
    email_handler := none, telegram_handler := none, whatsapp_handler := none,
    last_alerts := [], alert_history := [], max_history := 100 }

/-- An enabled coordinator with `cooldown_seconds = 60` and no channels. -/
def demoManager : AlertManagerState :=
  { demoOff with enabled := true }

/-- As `demoManager`, but the gun class last fired at time 0. -/
def demoBusy : AlertManagerState :=
  { demoManager with last_alerts := [("gun", 0)] }

/-- An enabled coordinator with an email channel whose send succeeds and a
telegram channel whose send raises. -/
def demoChans : AlertManagerState :=
  { demoManager with
    email_handler := some ⟨true, SendOutcome.ok, 1⟩,
    telegram_handler := some ⟨true, SendOutcome.raised, 2⟩ }

/-- An enabled coordinator where the sms channel's send takes 5 seconds and
the email channel's takes 1 second. -/
def demoSlow : AlertManagerState :=
  { demoManager with
    sms_handler := some ⟨true, SendOutcome.ok, 5⟩,
    email_handler := some ⟨true, SendOutcome.ok, 1⟩ }

/-- A concrete evidence record as `save_detection` builds it (tuple bbox). -/
def sampleEvidence : EvidenceRecord :=
  { id := "EVD_20240101_120000_000001", weapon_type := "gun", confidence := 1,
    timestamp := "2024-01-01T12:00:00", location := "Camera 1",
    image_path := "data/evidence/images/EVD_20240101_120000_000001.jpg",
    bbox := PySeq.tup [10, 20, 110, 220] }

/-- A second concrete evidence record. -/
def sampleEvidence2 : EvidenceRecord :=
  { sampleEvidence with id := "EVD_20240101_120000_000002", weapon_type := "knife" }

/-- A third concrete evidence record. -/
def sampleEvidence3 : EvidenceRecord :=
  { sampleEvidence with id := "EVD_20240101_120000_000003", weapon_type := "rifle" }

/-- A concrete detection batch member. -/
def sampleDetection : Detection :=
  { class_name := "gun", confidence := 1, bbox := (10, 20, 110, 220),
    timestamp := 0, frame_id := 1 }

theorem dictLookup_dictSet_self {α : Type} (d : List (String × α)) (k : String)
    (v : α) : dictLookup (dictSet d k v) k = some v := by
  induction d with
  | nil => simp [dictSet, dictLookup]
  | cons p rest ih =>
      by_cases h : p.1 = k
      · simp [dictSet, dictLookup, h]
      · simp [dictSet, dictLookup, h, ih]

/-- Shared evaluation of `trigger_alert` when the manager is enabled and the
call passes the cooldown gate (by `force` or by an expired clock). -/
theorem AlertManager.trigger_accept (st : AlertManagerState) (now : ℚ)
    (weapon_type : String) (confidence : ℚ) (location : String)
    (evidence_path : Option String) (force : Bool)
    (hen : st.enabled = true)
    (h : force = true ∨ AlertManager.check_cooldown st now weapon_type = true) :
    AlertManager.trigger_alert st now weapon_type confidence location
        evidence_path force =
      ({ triggered := true,
         channels := AlertManager.channelResults (AlertManager.readyTasks st),
         reason := none },
        AlertManager.record_alert st now weapon_type confidence location
          (AlertManager.channelsUsed (AlertManager.readyTasks st))
          evidence_path) := by
  rcases h with h | h <;> simp [AlertManager.trigger_alert, hen, h]

/-- Shared evaluation of `trigger_alert` when the manager is enabled, `force`
is off and the per-class cooldown is still active. -/
theorem AlertManager.trigger_blocked (st : AlertManagerState) (now : ℚ)
    (weapon_type : String) (confidence : ℚ) (location : String)
    (evidence_path : Option String)
    (hen : st.enabled = true)
    (hc : AlertManager.check_cooldown st now weapon_type = false) :
    AlertManager.trigger_alert st now weapon_type confidence location
        evidence_path false =
      ({ triggered := false, channels := [],
         reason := some ("cooldown_active_" ++
           toString (pyInt (st.cooldown_seconds -
             (now - (dictLookup st.last_alerts weapon_type).getD 0))) ++
           "s_remaining") }, st) := by
  simp [AlertManager.trigger_alert, hen, hc]

/-- C10: when the coordinator is globally disabled, every `trigger_alert`
call, `force` included, returns `triggered = false` with reason
`"alerts_disabled"`, dispatches to no channel, appends no record and leaves
the whole state (cooldown map included) unchanged. -/
theorem AlertManager.disabled_blocks_all_triggers (st : AlertManagerState)
    (now : ℚ) (weapon_type : String) (confidence : ℚ) (location : String)
    (evidence_path : Option String) (force : Bool)
    (hdis : st.enabled = false) :
    AlertManager.trigger_alert st now weapon_type confidence location
        evidence_path force =
      ({ triggered := false, channels := [],
         reason := some "alerts_disabled" }, st) := by
  simp [AlertManager.trigger_alert, hdis]

theorem AlertManager.disabled_blocks_all_triggers_witness :
    demoOff.enabled = false ∧
    AlertManager.trigger_alert demoOff 5 "gun" 1 "Camera 1" none true =
      ({ triggered := false, channels := [],
         reason := some "alerts_disabled" }, demoOff) :=
  ⟨rfl,
    AlertManager.disabled_blocks_all_triggers demoOff 5 "gun" 1 "Camera 1"
      none true rfl⟩

/-- C6: with the coordinator enabled, `trigger_alert` with `force = true`
always dispatches to every ready channel (never a cooldown reason) and always
advances the per-class cooldown clock of the class to the current time. -/
theorem AlertManager.force_bypasses_cooldown (st : AlertManagerState)
    (now : ℚ) (weapon_type : String) (confidence : ℚ) (location : String)
    (evidence_path : Option String) (hen : st.enabled = true) :
    (AlertManager.trigger_alert st now weapon_type confidence location
        evidence_path true).1.triggered = true ∧
    (AlertManager.trigger_alert st now weapon_type confidence location
        evidence_path true).1.reason = none ∧
    (AlertManager.trigger_alert st now weapon_type confidence location
        evidence_path true).1.channels =
      AlertManager.channelResults (AlertManager.readyTasks st) ∧
    dictLookup (AlertManager.trigger_alert st now weapon_type confidence
        location evidence_path true).2.last_alerts weapon_type = some now := by
  rw [AlertManager.trigger_accept st now weapon_type confidence location
    evidence_path true hen (Or.inl rfl)]
  refine ⟨rfl, rfl, rfl, ?_⟩
  simp [AlertManager.record_alert, dictLookup_dictSet_self]

theorem AlertManager.force_bypasses_cooldown_witness :
    demoBusy.enabled = true ∧
    (AlertManager.trigger_alert demoBusy 10 "gun" 1 "Camera 1" none
      true).1.triggered = true ∧
    dictLookup (AlertManager.trigger_alert demoBusy 10 "gun" 1 "Camera 1" none
      true).2.last_alerts "gun" = some 10 :=
  ⟨rfl,
    (AlertManager.force_bypasses_cooldown demoBusy 10 "gun" 1 "Camera 1" none
      rfl).1,
    (AlertManager.force_bypasses_cooldown demoBusy 10 "gun" 1 "Camera 1" none
      rfl).2.2.2⟩

/-- C3: enabled coordinator, no active cooldown for the class, zero channels
configured: `trigger_alert` returns `triggered = true` with an empty
per-channel map, and the one `AlertRecord` appended to history carries the
sentinel `channels = ["log"]`. -/
theorem AlertManager.no_channels_gives_log_sentinel (st : AlertManagerState)
    (now : ℚ) (weapon_type : String) (confidence : ℚ) (location : String)
    (evidence_path : Option String)
    (hen : st.enabled = true)
    (hcd : AlertManager.check_cooldown st now weapon_type = true)
    (hs : st.sms_handler = none) (he : st.email_handler = none)
    (ht : st.telegram_handler = none) (hw : st.whatsapp_handler = none) :
    AlertManager.trigger_alert st now weapon_type confidence location
        evidence_path false =
      ({ triggered := true, channels := [], reason := none },
        { st with
          last_alerts := dictSet st.last_alerts weapon_type now,
          alert_history := AlertManager.trimHistory st.max_history
            (st.alert_history ++
              [{ weapon_type := weapon_type, confidence := confidence,
                 location := location, timestamp := now, channels := ["log"],
                 evidence_path := evidence_path }]) }) := by
  rw [AlertManager.trigger_accept st now weapon_type confidence location
    evidence_path false hen (Or.inr hcd)]
  simp [AlertManager.readyTasks, AlertManager.optTask, hs, he, ht, hw,
    AlertManager.channelResults, AlertManager.channelsUsed,
    AlertManager.successfulChannels, AlertManager.record_alert]

theorem AlertManager.no_channels_gives_log_sentinel_witness :
    demoManager.enabled = true ∧
    AlertManager.check_cooldown demoManager 0 "gun" = true ∧
    AlertManager.trigger_alert demoManager 0 "gun" (9/10) "Camera 1" none
        false =
      ({ triggered := true, channels := [], reason := none },
        { demoManager with
          last_alerts := dictSet demoManager.last_alerts "gun" 0,
          alert_history := AlertManager.trimHistory demoManager.max_history
            (demoManager.alert_history ++
              [{ weapon_type := "gun", confidence := 9/10,
                 location := "Camera 1", timestamp := 0, channels := ["log"],
                 evidence_path := none }]) }) :=
  ⟨rfl, rfl,
    AlertManager.no_channels_gives_log_sentinel demoManager 0 "gun" (9/10)
      "Camera 1" none rfl rfl rfl rfl rfl rfl⟩

/-- C7: during an accepted dispatch, a channel whose `send_alert` raises is
recorded as `false` in the per-channel map; all ready channels are attempted
and each entry depends only on that channel's own outcome; the alert is still
recorded in history and the call still returns `triggered = true`. -/
theorem AlertManager.channel_error_isolated (st : AlertManagerState)
    (now : ℚ) (weapon_type : String) (confidence : ℚ) (location : String)
    (evidence_path : Option String)
    (hen : st.enabled = true)
    (hcd : AlertManager.check_cooldown st now weapon_type = true) :
    (AlertManager.trigger_alert st now weapon_type confidence location
        evidence_path false).1.triggered = true ∧
    (AlertManager.trigger_alert st now weapon_type confidence location
        evidence_path false).1.channels =
      AlertManager.channelResults (AlertManager.readyTasks st) ∧
    (∀ nm hd, (nm, hd) ∈ AlertManager.readyTasks st →
      hd.outcome = SendOutcome.raised →
      (nm, false) ∈ (AlertManager.trigger_alert st now weapon_type confidence
        location evidence_path false).1.channels) ∧
    (AlertManager.trigger_alert st now weapon_type confidence location
        evidence_path false).2.alert_history =
      AlertManager.trimHistory st.max_history
        (st.alert_history ++
          [{ weapon_type := weapon_type, confidence := confidence,
             location := location, timestamp := now,
             channels := AlertManager.channelsUsed (AlertManager.readyTasks st),
             evidence_path := evidence_path }]) := by
  rw [AlertManager.trigger_accept st now weapon_type confidence location
    evidence_path false hen (Or.inr hcd)]
  refine ⟨rfl, rfl, ?_, rfl⟩
  intro nm hd hmem hout
  simp only [AlertManager.channelResults, List.mem_map]
  exact ⟨(nm, hd), hmem, by simp [hout]⟩

theorem AlertManager.channel_error_isolated_witness :
    demoChans.enabled = true ∧
    ("telegram", false) ∈ (AlertManager.trigger_alert demoChans 0 "gun" 1
      "Camera 1" none false).1.channels ∧
    (AlertManager.trigger_alert demoChans 0 "gun" 1 "Camera 1" none
      false).1.triggered = true :=
  ⟨rfl,
    (AlertManager.channel_error_isolated demoChans 0 "gun" 1 "Camera 1" none
        rfl rfl).2.2.1 "telegram" ⟨true, SendOutcome.raised, 2⟩
      (by simp [AlertManager.readyTasks, AlertManager.optTask, demoChans,
        demoManager, demoOff]) rfl,
    (AlertManager.channel_error_isolated demoChans 0 "gun" 1 "Camera 1" none
      rfl rfl).1⟩

/-- C1 (amended): with the coordinator enabled and no `force`, a second
`trigger_alert` for the same class less than `cooldown_seconds` after an
accepted first one returns `triggered = false` with reason
`"cooldown_active_<remaining>s_remaining"` (note the source appends
`"_remaining"` after the `s`), dispatches to no channel, appends no record and
leaves the whole state, the per-class clock included, unchanged; across the
two calls exactly one dispatch attempt and one `AlertRecord` happen. -/
theorem AlertManager.cooldown_blocks_second_call (st : AlertManagerState)
    (now1 now2 : ℚ) (weapon_type : String) (confidence : ℚ) (location : String)
    (evidence_path : Option String)
    (hen : st.enabled = true)
    (h1 : AlertManager.check_cooldown st now1 weapon_type = true)
    (h2 : now2 - now1 < st.cooldown_seconds) :
    (AlertManager.trigger_alert st now1 weapon_type confidence location
        evidence_path false).1.triggered = true ∧
    AlertManager.trigger_alert
        (AlertManager.trigger_alert st now1 weapon_type confidence location
          evidence_path false).2 now2 weapon_type confidence location
        evidence_path false =
      ({ triggered := false, channels := [],
         reason := some ("cooldown_active_" ++
           toString (pyInt (st.cooldown_seconds - (now2 - now1))) ++
           "s_remaining") },
       (AlertManager.trigger_alert st now1 weapon_type confidence location
         evidence_path false).2) ∧
    (AlertManager.trigger_alert st now1 weapon_type confidence location
        evidence_path false).2.alert_history =
      AlertManager.trimHistory st.max_history
        (st.alert_history ++
          [{ weapon_type := weapon_type, confidence := confidence,
             location := location, timestamp := now1,
             channels := AlertManager.channelsUsed (AlertManager.readyTasks st),
             evidence_path := evidence_path }]) := by
  rw [AlertManager.trigger_accept st now1 weapon_type confidence location
    evidence_path false hen (Or.inr h1)]
  refine ⟨rfl, ?_, rfl⟩
  have hlook :
      dictLookup (AlertManager.record_alert st now1 weapon_type confidence
        location (AlertManager.channelsUsed (AlertManager.readyTasks st))
        evidence_path).last_alerts weapon_type = some now1 := by
    simp [AlertManager.record_alert, dictLookup_dictSet_self]
  have hc : AlertManager.check_cooldown
      (AlertManager.record_alert st now1 weapon_type confidence location
        (AlertManager.channelsUsed (AlertManager.readyTasks st)) evidence_path)
      now2 weapon_type = false := by
    rw [AlertManager.check_cooldown, hlook]
    simpa using not_le.mpr h2
  rw [AlertManager.trigger_blocked (AlertManager.record_alert st now1
    weapon_type confidence location
    (AlertManager.channelsUsed (AlertManager.readyTasks st)) evidence_path)
    now2 weapon_type confidence location evidence_path hen hc]
  simp [AlertManager.record_alert, dictLookup_dictSet_self]

theorem AlertManager.cooldown_blocks_second_call_witness :
    (10 : ℚ) - 0 < demoManager.cooldown_seconds ∧
    (AlertManager.trigger_alert
      (AlertManager.trigger_alert demoManager 0 "gun" 1 "Camera 1" none
        false).2 10 "gun" 1 "Camera 1" none false).1.triggered = false := by
  have h := AlertManager.cooldown_blocks_second_call demoManager 0 10 "gun" 1
    "Camera 1" none rfl rfl (by norm_num [demoManager, demoOff])
  exact ⟨by norm_num [demoManager, demoOff], by rw [h.2.1]⟩

/-- C1 counterexample: in cooldown (gun last fired at 0, now 10, window 60)
the reason string the code returns is `"cooldown_active_50s_remaining"`, not
the `"cooldown_active_50s"` shape the claim states. -/
theorem AlertManager.cooldown_reason_format_counterexample :
    (AlertManager.trigger_alert demoBusy 10 "gun" 1 "Camera 1" none
      false).1.reason = some "cooldown_active_50s_remaining" ∧
    (AlertManager.trigger_alert demoBusy 10 "gun" 1 "Camera 1" none
      false).1.reason ≠ some "cooldown_active_50s" := by
  refine ⟨?_, ?_⟩ <;>
    norm_num [AlertManager.trigger_alert, AlertManager.check_cooldown,
      dictLookup, pyInt, demoBusy, demoManager, demoOff] <;>
    decide

/-- C9 (code-bug evidence): the `for channel, task in tasks: await task` loop
runs the channel coroutines one after another, so with the sms send taking 5
seconds the email channel only starts at t = 5 instead of t = 0, and the
dispatch completes at 6, the sum rather than the maximum of the durations. -/
theorem AlertManager.dispatch_awaits_sequentially :
    AlertManager.dispatchSchedule 0 (AlertManager.readyTasks demoSlow) =
      [("sms", 0, 5), ("email", 5, 6)] := by
  norm_num [AlertManager.dispatchSchedule, AlertManager.readyTasks,
    AlertManager.optTask, demoSlow, demoManager, demoOff]

/-- C8 (amended): when an image write raises, `save_detection` returns `None`
with the store unchanged and the websocket consumer does not call
`trigger_alert`; a metadata-write failure, however, is swallowed inside
`_save_metadata`, so the evidence id is still returned. -/
theorem EvidenceManager.save_failure_reporting (st : EvidenceManagerState)
    (r : EvidenceRecord) (meta_ok : Bool) :
    EvidenceManager.save_detection true meta_ok st r = (none, st) ∧
    websocketTriggersAlert
      (EvidenceManager.save_detection true meta_ok st r).1 = false ∧
    (EvidenceManager.save_detection false meta_ok st r).1 = some r.id := by
  refine ⟨rfl, ?_, rfl⟩
  simp [EvidenceManager.save_detection, websocketTriggersAlert, pyTruthyStr]

/-- C8 counterexample: the image writes succeed and the metadata write fails,
yet `save_detection` still returns the evidence id instead of `None`. -/
theorem EvidenceManager.metadata_failure_still_returns_id :
    (EvidenceManager.save_detection false false (initialStore 1000)
      sampleEvidence).1 = some "EVD_20240101_120000_000001" ∧
    (EvidenceManager.save_detection false false (initialStore 1000)
      sampleEvidence).1 ≠ none := by
  refine ⟨rfl, ?_⟩
  simp [EvidenceManager.save_detection]

theorem EvidenceManager.cleanupLoop_eq_drop (max_files : ℕ)
    (l : List EvidenceRecord) :
    EvidenceManager.cleanupLoop max_files l = l.drop (l.length - max_files) := by
  induction l with
  | nil => simp [EvidenceManager.cleanupLoop]
  | cons r rest ih =>
    by_cases h : max_files < rest.length + 1
    · have h1 : rest.length + 1 - max_files = (rest.length - max_files) + 1 := by
        omega
      simp [EvidenceManager.cleanupLoop, h, ih, h1]
    · have h0 : rest.length + 1 - max_files = 0 := by omega
      simp [EvidenceManager.cleanupLoop, h, h0]

theorem EvidenceManager.save_detection_records (st : EvidenceManagerState)
    (r : EvidenceRecord) :
    ((EvidenceManager.save_detection false true st r).2).records =
      (st.records ++ [r]).drop (st.records.length + 1 - st.max_files) ∧
    ((EvidenceManager.save_detection false true st r).2).max_files =
      st.max_files := by
  simp [EvidenceManager.save_detection, EvidenceManager.save_metadata,
    EvidenceManager.cleanup_old_evidence, EvidenceManager.cleanupLoop_eq_drop]

theorem drop_append_of_le_length {α : Type} (n : ℕ) (l1 l2 : List α)
    (h : n ≤ l1.length) : (l1 ++ l2).drop n = l1.drop n ++ l2 := by
  rw [List.drop_append_eq_append_drop]
  have h0 : n - l1.length = 0 := by omega
  rw [h0, List.drop_zero]

theorem EvidenceManager.saveAll_records (rs : List EvidenceRecord) :
    ∀ st : EvidenceManagerState, st.records.length ≤ st.max_files →
      (EvidenceManager.saveAll st rs).records =
        (st.records ++ rs).drop (st.records.length + rs.length - st.max_files) ∧
      (EvidenceManager.saveAll st rs).max_files = st.max_files := by
  induction rs with
  | nil =>
    intro st hle
    have h0 : st.records.length - st.max_files = 0 := by omega
    simp [EvidenceManager.saveAll, h0]
  | cons r rest ih =>
    intro st hle
    have hstep : EvidenceManager.saveAll st (r :: rest) =
        EvidenceManager.saveAll
          ((EvidenceManager.save_detection false true st r).2) rest := by
      simp [EvidenceManager.saveAll]
    obtain ⟨hr1, hm1⟩ := EvidenceManager.save_detection_records st r
    have hle1 : ((EvidenceManager.save_detection false true st r).2).records.length ≤
        ((EvidenceManager.save_detection false true st r).2).max_files := by
      rw [hr1, hm1, List.length_drop]
      simp; omega
    obtain ⟨hrec, hmax⟩ :=
      ih ((EvidenceManager.save_detection false true st r).2) hle1
    rw [hstep, hrec, hr1, hm1, List.length_drop]
    refine ⟨?_, hmax.trans hm1⟩
    have h1 : st.records.length + 1 - st.max_files ≤
        (st.records ++ [r]).length := by
      simp
    rw [← drop_append_of_le_length _ _ _ h1, List.drop_drop]
    have hlist : st.records ++ [r] ++ rest = st.records ++ (r :: rest) := by
      simp
    rw [hlist]
    congr 1
    simp only [List.length_append, List.length_cons, List.length_nil]
    omega

/-- C2: starting from an empty store, after `max_files + k` successful saves
exactly `max_files` records remain, namely the `max_files` most recent in
save order (oldest evicted first); and every `_cleanup_old_evidence` run
evicts oldest-first down to `max_files` and persists the index exactly once,
however many records it removed. -/
theorem EvidenceManager.bounded_retention (max_files k : ℕ)
    (rs : List EvidenceRecord) (h : rs.length = max_files + k) :
    (EvidenceManager.saveAll (initialStore max_files) rs).records =
      rs.drop k ∧
    (EvidenceManager.saveAll (initialStore max_files) rs).records.length =
      max_files ∧
    (∀ st : EvidenceManagerState, ∀ meta_ok : Bool,
      (EvidenceManager.cleanup_old_evidence meta_ok st).meta_attempts =
        st.meta_attempts + 1 ∧
      (EvidenceManager.cleanup_old_evidence meta_ok st).records =
        st.records.drop (st.records.length - st.max_files)) := by
  obtain ⟨hrec, hmax⟩ :=
    EvidenceManager.saveAll_records rs (initialStore max_files)
      (by simp [initialStore])
  have hrec' : (EvidenceManager.saveAll (initialStore max_files) rs).records =
      rs.drop k := by
    rw [hrec]
    simp only [initialStore, List.nil_append, List.length_nil]
    congr 1
    omega
  refine ⟨hrec', ?_, ?_⟩
  · rw [hrec', List.length_drop]
    omega
  · intro st meta_ok
    constructor
    · simp [EvidenceManager.cleanup_old_evidence, EvidenceManager.save_metadata]
    · simp [EvidenceManager.cleanup_old_evidence, EvidenceManager.save_metadata,
        EvidenceManager.cleanupLoop_eq_drop]

theorem EvidenceManager.bounded_retention_witness :
    ([sampleEvidence, sampleEvidence2, sampleEvidence3] :
      List EvidenceRecord).length = 2 + 1 ∧
    (EvidenceManager.saveAll (initialStore 2)
      [sampleEvidence, sampleEvidence2, sampleEvidence3]).records =
      [sampleEvidence, sampleEvidence2, sampleEvidence3].drop 1 :=
  ⟨rfl,
    (EvidenceManager.bounded_retention 2 1
      [sampleEvidence, sampleEvidence2, sampleEvidence3] rfl).1⟩

theorem decodeIntList_map (xs : List ℤ) :
    decodeIntList (xs.map Json.jint) = some xs := by
  induction xs with
  | nil => rfl
  | cons x xs ih => simp [decodeIntList, ih]

theorem decodeRecord_encodeRecord (r : EvidenceRecord) :
    decodeRecord (encodeRecord r) = some (reloadRecord r) := by
  simp [encodeRecord, decodeRecord, dictLookup, decodeIntList_map, reloadRecord]

/-- C5 (amended): persisting the full index as `_save_metadata` does and
reloading it as `_load_metadata` does preserves every field of every record
except the `bbox` container, which comes back as a list with the same
coordinates; a freshly saved record holds a tuple there, so the reloaded
record is not dataclass-equal to it. -/
theorem EvidenceManager.metadata_roundtrip (records : List EvidenceRecord) :
    loadIndex (saveIndex records) = some (records.map reloadRecord) ∧
    ∀ r : EvidenceRecord,
      (reloadRecord r).id = r.id ∧
      (reloadRecord r).weapon_type = r.weapon_type ∧
      (reloadRecord r).confidence = r.confidence ∧
      (reloadRecord r).timestamp = r.timestamp ∧
      (reloadRecord r).location = r.location ∧
      (reloadRecord r).image_path = r.image_path ∧
      PySeq.elems (reloadRecord r).bbox = PySeq.elems r.bbox := by
  constructor
  · induction records with
    | nil => rfl
    | cons r rest ih =>
      simp only [saveIndex, loadIndex, List.map_cons] at ih ⊢
      simp [decodeRecords, decodeRecord_encodeRecord, ih]
  · intro r
    exact ⟨rfl, rfl, rfl, rfl, rfl, rfl, rfl⟩

/-- C5 counterexample: a record saved with a tuple bbox reloads with a list
bbox, so the reloaded index differs from the pre-restart one. -/
theorem EvidenceManager.metadata_roundtrip_counterexample :
    loadIndex (saveIndex [sampleEvidence]) =
      some [{ sampleEvidence with bbox := PySeq.lst [10, 20, 110, 220] }] ∧
    loadIndex (saveIndex [sampleEvidence]) ≠ some [sampleEvidence] := by
  have h := decodeRecord_encodeRecord sampleEvidence
  have h2 : reloadRecord sampleEvidence =
      { sampleEvidence with bbox := PySeq.lst [10, 20, 110, 220] } := rfl
  have hls : loadIndex (saveIndex [sampleEvidence]) =
      some [reloadRecord sampleEvidence] := by
    simp [loadIndex, saveIndex, decodeRecords, h]
  refine ⟨by rw [hls, h2], ?_⟩
  rw [hls, h2]
  simp [sampleEvidence]

theorem WeaponDetector.detectStep_spec (st : WeaponDetectorState)
    (dets : List Detection) (hne : dets ≠ []) :
    WeaponDetector.detectStep st dets =
      (if (st.detection_cooldown : ℤ) ≤ ((st.frame_count + 1 : ℕ) : ℤ) -
          (((dictLookup st.last_detection_frame "_any_").getD 0 : ℕ) : ℤ) then
        (dets,
          { st with
            frame_count := st.frame_count + 1
            last_detection_frame :=
              dictSet st.last_detection_frame "_any_" (st.frame_count + 1) })
      else ([], { st with frame_count := st.frame_count + 1 })) := by
  have hbs : dets.isEmpty = false := by
    cases dets with
    | nil => exact absurd rfl hne
    | cons a l => rfl
  simp only [WeaponDetector.detectStep, hbs]
  rfl

theorem dictLookup_singleton {α : Type} (k : String) (v : α) :
    dictLookup [(k, v)] k = some v := by
  simp [dictLookup]

theorem dictSet_head {α : Type} (k : String) (v w : α)
    (rest : List (String × α)) : dictSet ((k, v) :: rest) k w = (k, w) :: rest := by
  simp [dictSet]

theorem WeaponDetector.detectIter_spec (d : ℕ) (bs : ℕ → List Detection)
    (hd : 1 ≤ d) (hb : ∀ i, 1 ≤ i → i ≤ 2 * d → bs i ≠ []) :
    ∀ n, n ≤ 2 * d →
      WeaponDetector.detectIter d bs n =
        { confidence_threshold := 7/10, detection_cooldown := d,
          frame_count := n,
          last_detection_frame :=
            if n < d then [] else
            if n < 2 * d then [("_any_", d)] else [("_any_", 2 * d)] } := by
  intro n
  induction n with
  | zero =>
    intro _
    have h0 : (0 : ℕ) < d := hd
    simp [WeaponDetector.detectIter, WeaponDetector.initState, h0]
  | succ n ih =>
    intro hn
    have hne := hb (n + 1) (by omega) hn
    rw [WeaponDetector.detectIter, ih (by omega),
      WeaponDetector.detectStep_spec _ _ hne]
    by_cases hc1 : n + 1 < d
    · have hpos : n < d := by omega
      rw [if_pos hpos, if_pos hc1]
      simp only [dictLookup, Option.getD_none]
      split
      · rename_i h
        exfalso
        omega
      · rfl
    · by_cases hc2 : n + 1 = d
      · have hpos : n < d := by omega
        have h2d : n + 1 < 2 * d := by omega
        rw [if_pos hpos, if_neg hc1, if_pos h2d]
        simp only [dictLookup, Option.getD_none]
        split
        · rename_i h
          simp only [dictSet]
          rw [hc2]
        · rename_i h
          exfalso
          omega
      · by_cases hc3 : n + 1 < 2 * d
        · have hge : ¬(n < d) := by omega
          have hlt : n < 2 * d := by omega
          rw [if_neg hge, if_pos hlt, if_neg hc1, if_pos hc3]
          simp only [dictLookup_singleton, Option.getD_some]
          split
          · rename_i h
            exfalso
            omega
          · rfl
        · have hc4 : n + 1 = 2 * d := by omega
          have hge : ¬(n < d) := by omega
          have hlt : n < 2 * d := by omega
          rw [if_neg hge, if_pos hlt, if_neg hc1, if_neg hc3]
          simp only [dictLookup_singleton, Option.getD_some]
          split
          · rename_i h
            rw [dictSet_head, hc4]
          · rename_i h
            exfalso
            omega

/-- C4: with `detection_cooldown = d` frames and a non-empty candidate batch
produced on every frame `1..2d`, the `detect` call returns a non-empty batch
exactly at frames `d` and `2d` — once in `1..d` and once in `d+1..2d` — and an
accepted batch is returned in full (the cooldown is evaluated once per batch,
not per class); every other call returns the empty list. -/
theorem WeaponDetector.detection_cooldown_window (d k : ℕ)
    (bs : ℕ → List Detection) (hd : 1 ≤ d)
    (hb : ∀ i, 1 ≤ i → i ≤ 2 * d → bs i ≠ [])
    (hk1 : 1 ≤ k) (hk2 : k ≤ 2 * d) :
    WeaponDetector.detectOut d bs k =
      (if k = d ∨ k = 2 * d then bs k else []) := by
  obtain ⟨n, rfl⟩ : ∃ n, k = n + 1 := ⟨k - 1, by omega⟩
  have hne := hb (n + 1) (by omega) hk2
  rw [WeaponDetector.detectOut,
    WeaponDetector.detectIter_spec d bs hd hb n (by omega),
    WeaponDetector.detectStep_spec _ _ hne]
  by_cases hc1 : n + 1 < d
  · have hpos : n < d := by omega
    rw [if_pos hpos, if_neg (show ¬(n + 1 = d ∨ n + 1 = 2 * d) by omega)]
    simp only [dictLookup, Option.getD_none]
    split
    · rename_i h
      exfalso
      omega
    · rfl
  · by_cases hc2 : n + 1 = d
    · have hpos : n < d := by omega
      rw [if_pos hpos, if_pos (Or.inl hc2)]
      simp only [dictLookup, Option.getD_none]
      split
      · rfl
      · rename_i h
        exfalso
        omega
    · by_cases hc3 : n + 1 < 2 * d
      · have hge : ¬(n < d) := by omega
        have hlt : n < 2 * d := by omega
        rw [if_neg hge, if_pos hlt,
          if_neg (show ¬(n + 1 = d ∨ n + 1 = 2 * d) by omega)]
        simp only [dictLookup_singleton, Option.getD_some]
        split
        · rename_i h
          exfalso
          omega
        · rfl
      · have hc4 : n + 1 = 2 * d := by omega
        have hge : ¬(n < d) := by omega
        have hlt : n < 2 * d := by omega
        rw [if_neg hge, if_pos hlt, if_pos (Or.inr hc4)]
        simp only [dictLookup_singleton, Option.getD_some]
        split
        · rfl
        · rename_i h
          exfalso
          omega

theorem WeaponDetector.detection_cooldown_window_witness :
    (1 : ℕ) ≤ 1 ∧
    WeaponDetector.detectOut 1 (fun _ => [sampleDetection]) 1 =
      [sampleDetection] := by
  have h := WeaponDetector.detection_cooldown_window 1 1
    (fun _ => [sampleDetection]) (le_refl 1) (fun i h1 h2 => by simp)
    (le_refl 1) (by omega)
  refine ⟨le_refl 1, ?_⟩
  rw [h]
  simp
